import Mathlib

/-!
Shallow embedding of the ShopSentinel scan endpoint (the `POST` route handler).

The route normalizes a user-supplied URL, performs two network probes
(HTTPS with redirects followed; HTTP with redirects suppressed), extracts six
security headers from the HTTPS response, evaluates eight findings, computes a
score and a priority list, and returns either a 200 payload or a 400 error.

Network effects are embedded by passing each probe's outcome explicitly:
`Option Resp`, where `none` models the fetch throwing (any network failure)
and `some r` models a completed fetch with final status `r.status` and
response headers `r.headers`.
-/

/-- A completed fetch response: final status code and response headers as
name-value pairs. -/
structure Resp where
  status : Nat
  headers : List (String × String)
deriving DecidableEq

/-- The character list of a string, lowercased; used to model the
case-insensitive comparisons of the route and of the fetch API. -/
def lowerChars (s : String) : List Char := s.data.map Char.toLower

/-- Models `Headers.get(name)`: case-insensitive lookup of the first header
with the given name, `none` when absent. -/
def headersGet (hs : List (String × String)) (name : String) : Option String :=
  (hs.find? (fun p => lowerChars p.1 == lowerChars name)).map (fun p => p.2)

/-- Models a case-insensitive anchored regex test: `p` is a case-insensitive
initial segment of `s`. -/
def startsWithCI (s p : String) : Bool := (lowerChars p).isPrefixOf (lowerChars s)

/-- Models the test `/^https?:\/\//i` used by `normalizeUrl`. -/
def hasHttpScheme (s : String) : Bool := startsWithCI s "http://" || startsWithCI s "https://"

/-- A character that terminates the authority component of an http(s) URL. -/
def authEnd (c : Char) : Bool := c = '/' || c = '?' || c = '#' || c = '\\'

/-- Drop a leading userinfo component: keep the characters after the last
literal at-sign, the whole list when there is none. -/
def afterLastAt (cs : List Char) : List Char := (cs.reverse.takeWhile (fun c => c ≠ '@')).reverse

/-- Host extraction from an authority: characters up to the first authority
terminator, userinfo stripped, lowercased; an empty host fails (the URL
constructor throws). -/
def parseAuthority (cs : List Char) : Option String :=
  let auth := cs.takeWhile (fun c => !(authEnd c))
  let host := afterLastAt auth
  if host.isEmpty then none else some (String.mk (host.map Char.toLower))

/-- Models `new URL(url).host` for the strings this route feeds it (they carry
an http or https scheme after prefixing): the authority after the scheme
separator, up to the first of slash, question mark, hash or backslash, with
userinfo stripped and ASCII letters lowercased; `none` models the constructor
throwing (e.g. empty host). Port syntax validation, IPv6 literals,
percent-decoding and punycode are not modelled; no claim depends on them. -/
def parseUrlHost (url : String) : Option String :=
  if startsWithCI url "https://" then parseAuthority (url.data.drop 8)
  else if startsWithCI url "http://" then parseAuthority (url.data.drop 7)
  else none

/-- The canonical probe targets derived from the input. -/
structure NormalizedUrl where
  httpsUrl : String
  httpUrl : String
  host : String
deriving DecidableEq

/-- Models `String.prototype.trim`: drop whitespace from both ends. -/
def jsTrim (s : String) : String :=
  String.mk ((s.data.dropWhile Char.isWhitespace).reverse.dropWhile Char.isWhitespace).reverse

/-- The trim-and-prepend step of `normalizeUrl`: trim the input, and prepend
`https://` when it lacks an http or https scheme (case-insensitive). -/
def prefixedUrl (input : String) : String :=
  if hasHttpScheme (jsTrim input) then jsTrim input else "https://" ++ jsTrim input

/-- `normalizeUrl` from the route: trim, prepend `https://` when schemeless,
parse, and build both probe URLs from the parsed host. `none` models the URL
constructor throwing (caught by the route's outer handler). -/
def normalizeUrl (input : String) : Option NormalizedUrl :=
  match parseUrlHost (prefixedUrl input) with
  | none => none
  | some h =>
    some { httpsUrl := "https://" ++ h ++ "/", httpUrl := "http://" ++ h ++ "/", host := h }

/-- `toBoolHeader` from the route: `!!(h && h.length > 0)` — true exactly for
a present, non-empty header value. -/
def toBoolHeader (h : Option String) : Bool :=
  match h with
  | none => false
  | some s => decide (0 < s.length)

/-- `res.ok` of fetch: status in [200, 300). -/
def resOk (r : Resp) : Bool := 200 ≤ r.status && r.status ≤ 299

/-- Step 1 of the route: `httpsEnabled` is `res.ok || (200 <= status < 400)`
when the HTTPS fetch completed, false when it threw. -/
def httpsEnabledOf (o : Option Resp) : Bool :=
  match o with
  | none => false
  | some r => resOk r || (200 ≤ r.status && r.status < 400)

/-- Step 1 of the route: `httpsHeaders` is set from the response exactly when
the HTTPS fetch completed (the assignment follows the fetch in the `try`). -/
def httpsHeadersOf (o : Option Resp) : Option (List (String × String)) :=
  match o with
  | none => none
  | some r => some r.headers

/-- Step 2 of the route: `httpRedirectsToHttps` is true when the first-hop
HTTP response has status in {301, 302, 307, 308} and its `location` header
(defaulted to the empty string) matches `/^https:\/\//i`; false when the
fetch threw. -/
def httpRedirectsOf (o : Option Resp) : Bool :=
  match o with
  | none => false
  | some r =>
    [301, 302, 307, 308].contains r.status
      && startsWithCI ((headersGet r.headers "location").getD "") "https://"

/-- Step 3 of the route: the `get` closure — look a header up in the retained
HTTPS headers, `null` when no response exists. -/
def getHdr (o : Option Resp) (name : String) : Option String :=
  match httpsHeadersOf o with
  | none => none
  | some hs => headersGet hs name

/-- A finding of the scan: stable key, pass flag, message, and remediation
advice present only on failure. -/
structure Finding where
  key : String
  ok : Bool
  message : String
  advice : Option String
deriving DecidableEq

/-- Step 4 of the route: the eight findings, in source order, built from the
two probe booleans and the six extracted header values. -/
def findings8 (httpsEnabled httpRedirectsToHttps : Bool)
    (hsts csp xfo xcto refpol ppol : Option String) : List Finding :=
  [ { key := "httpsEnabled", ok := httpsEnabled,
      message := if httpsEnabled then "HTTPS activo" else "HTTPS no responde correctamente",
      advice := if httpsEnabled then none
        else some "Instala un certificado TLS válido y sirve la tienda por HTTPS." },
    { key := "httpRedirectsToHttps", ok := httpRedirectsToHttps,
      message := if httpRedirectsToHttps then "HTTP redirige a HTTPS" else "HTTP no redirige a HTTPS",
      advice := if httpRedirectsToHttps then none
        else some "Configura redirección 301/308 de http:// a https://." },
    { key := "hsts", ok := toBoolHeader hsts,
      message := if toBoolHeader hsts then "HSTS presente" else "HSTS ausente",
      advice := if toBoolHeader hsts then none
        else some "Añade Strict-Transport-Security: max-age=15552000; includeSubDomains; preload." },
    { key := "csp", ok := toBoolHeader csp,
      message := if toBoolHeader csp then "CSP presente" else "CSP ausente",
      advice := if toBoolHeader csp then none
        else some "Empieza con: Content-Security-Policy: default-src \x27self\x27; upgrade-insecure-requests;" },
    { key := "x-frame-options", ok := toBoolHeader xfo,
      message := if toBoolHeader xfo then "X-Frame-Options presente" else "X-Frame-Options ausente",
      advice := if toBoolHeader xfo then none
        else some "Usa X-Frame-Options: DENY (o SAMEORIGIN) para evitar clickjacking." },
    { key := "x-content-type-options", ok := toBoolHeader xcto,
      message := if toBoolHeader xcto then "X-Content-Type-Options presente" else "X-Content-Type-Options ausente",
      advice := if toBoolHeader xcto then none
        else some "Usa X-Content-Type-Options: nosniff para bloquear MIME sniffing." },
    { key := "referrer-policy", ok := toBoolHeader refpol,
      message := if toBoolHeader refpol then "Referrer-Policy presente" else "Referrer-Policy ausente",
      advice := if toBoolHeader refpol then none
        else some "Usa Referrer-Policy: strict-origin-when-cross-origin." },
    { key := "permissions-policy", ok := toBoolHeader ppol,
      message := if toBoolHeader ppol then "Permissions-Policy presente" else "Permissions-Policy ausente",
      advice := if toBoolHeader ppol then none
        else some "Añade Permissions-Policy para limitar APIs (e.g. camera=(), geolocation=())." } ]

/-- Step 5 of the route before the clamp: ten points per ok finding other
than the two probe keys, plus ten for each true probe boolean. -/
def rawScore (findings : List Finding) (httpsEnabled httpRedirectsToHttps : Bool) : Int :=
  ((findings.filter
      (fun f => f.ok && f.key != "httpsEnabled" && f.key != "httpRedirectsToHttps")).length : Int) * 10
    + (if httpsEnabled then 10 else 0) + (if httpRedirectsToHttps then 10 else 0)

/-- Step 5 of the route: `Math.max(0, Math.min(100, score))`. -/
def computeScore (findings : List Finding) (httpsEnabled httpRedirectsToHttps : Bool) : Int :=
  max 0 (min 100 (rawScore findings httpsEnabled httpRedirectsToHttps))

/-- JS truthiness of `f.advice`: defined and non-empty. -/
def adviceTruthy (f : Finding) : Bool :=
  match f.advice with
  | none => false
  | some s => decide (0 < s.length)

/-- The priorities of the route: failing findings with truthy advice, first
three in finding order, projected to key and advice. -/
def computePriorities (findings : List Finding) : List (String × String) :=
  ((findings.filter (fun f => !f.ok && adviceTruthy f)).take 3).map
    (fun f => (f.key, f.advice.getD ""))

/-- The `headers` object of the response payload. -/
structure ScanHeaders where
  hsts : Option String
  csp : Option String
  xFrameOptions : Option String
  xContentTypeOptions : Option String
  referrerPolicy : Option String
  permissionsPolicy : Option String
deriving DecidableEq

/-- The success payload (`ScanResponse` in the route). -/
structure ScanResponse where
  host : String
  httpsEnabled : Bool
  httpRedirectsToHttps : Bool
  headers : ScanHeaders
  score : Int
  findings : List Finding
  priorities : List (String × String)
deriving DecidableEq

/-- The findings of a scan given the two probe outcomes. -/
def scanFindings (o1 o2 : Option Resp) : List Finding :=
  findings8 (httpsEnabledOf o1) (httpRedirectsOf o2)
    (getHdr o1 "strict-transport-security") (getHdr o1 "content-security-policy")
    (getHdr o1 "x-frame-options") (getHdr o1 "x-content-type-options")
    (getHdr o1 "referrer-policy") (getHdr o1 "permissions-policy")

/-- Steps 1-5 and the payload assembly of the route, given the normalized
host and the two probe outcomes (`o1` the HTTPS probe, `o2` the HTTP probe). -/
def mkPayload (host : String) (o1 o2 : Option Resp) : ScanResponse :=
  { host := host
    httpsEnabled := httpsEnabledOf o1
    httpRedirectsToHttps := httpRedirectsOf o2
    headers := { hsts := getHdr o1 "strict-transport-security"
                 csp := getHdr o1 "content-security-policy"
                 xFrameOptions := getHdr o1 "x-frame-options"
                 xContentTypeOptions := getHdr o1 "x-content-type-options"
                 referrerPolicy := getHdr o1 "referrer-policy"
                 permissionsPolicy := getHdr o1 "permissions-policy" }
    score := computeScore (scanFindings o1 o2) (httpsEnabledOf o1) (httpRedirectsOf o2)
    findings := scanFindings o1 o2
    priorities := computePriorities (scanFindings o1 o2) }

/-- The route's reply: a JSON payload with an HTTP status, or a JSON error
object with an HTTP status. -/
inductive PostResult where
  | ok (status : Nat) (payload : ScanResponse)
  | err (status : Nat) (error : String)
deriving DecidableEq

/-- The 400 message for a missing or falsy `url` in the body. -/
def missingUrlMsg : String := "Falta \x27url\x27 en el body."

/-- The message of the TypeError thrown by `new URL` on unparseable input,
returned through the route's catch-all handler. -/
def invalidUrlMsg : String := "Invalid URL"

/-- The `POST` handler: validate the body's `url`, normalize it, run the scan
on the two probe outcomes, and assemble the reply. A missing or empty `url`
and a normalization failure yield 400 errors; probe failures do not. -/
def POST (bodyUrl : Option String) (o1 o2 : Option Resp) : PostResult :=
  match bodyUrl with
  | none => .err 400 missingUrlMsg
  | some url =>
    if url = "" then .err 400 missingUrlMsg
    else
      match normalizeUrl url with
      | none => .err 400 invalidUrlMsg
      | some n => .ok 200 (mkPayload n.host o1 o2)

/-- A present header value is counted exactly when non-empty. -/
theorem toBoolHeader_iff (h : Option String) :
    toBoolHeader h = true ↔ h ≠ none ∧ h ≠ some "" := by
  cases h with
  | none => simp [toBoolHeader]
  | some s =>
    obtain ⟨l⟩ := s
    cases l with
    | nil => simp [toBoolHeader, String.length]
    | cons c cs => simp [toBoolHeader, String.length, String.ext_iff]

/-- A completed HTTPS probe counts as enabled exactly for final statuses in
[200, 400): the `res.ok` disjunct is subsumed by the range check. -/
theorem httpsEnabledOf_some_eq_true (r : Resp) :
    httpsEnabledOf (some r) = true ↔ 200 ≤ r.status ∧ r.status < 400 := by
  simp only [httpsEnabledOf, resOk, Bool.or_eq_true, Bool.and_eq_true, decide_eq_true_eq]
  omega

/-- A list is an `isPrefixOf` of itself followed by anything. -/
theorem isPrefixOf_append_self {α : Type} [BEq α] [LawfulBEq α] (l t : List α) :
    l.isPrefixOf (l ++ t) = true := by
  induction l with
  | nil => simp
  | cons a as ih => simp [List.isPrefixOf_cons₂, ih]

/-- A string extended past a given head still passes the case-insensitive
anchored test for that head. -/
theorem startsWithCI_append (p rest : String) : startsWithCI (p ++ rest) p = true := by
  unfold startsWithCI lowerChars
  rw [String.data_append, List.map_append]
  exact isPrefixOf_append_self _ _

/-- C5: `httpsEnabled` is true exactly when the HTTPS fetch completed with a
final status in [200, 400); a thrown fetch yields false. -/
theorem https_enabled_iff_status_in_range (o : Option Resp) :
    (httpsEnabledOf o = true ↔ ∃ r : Resp, o = some r ∧ 200 ≤ r.status ∧ r.status < 400)
    ∧ httpsEnabledOf none = false := by
  refine ⟨?_, rfl⟩
  cases o with
  | none => simp [httpsEnabledOf]
  | some r =>
    simp only [httpsEnabledOf, resOk, Option.some.injEq, Bool.or_eq_true, Bool.and_eq_true,
      decide_eq_true_eq]
    constructor
    · rintro (⟨h1, h2⟩ | ⟨h1, h2⟩) <;> exact ⟨r, rfl, by omega⟩
    · rintro ⟨r', hr, h1, h2⟩
      cases hr
      omega

/-- C9: an empty or missing `url`, and input that fails URL parsing after
prefixing, each produce a structured 400 error whose message is non-empty,
independently of both probe outcomes (no probe is consulted). -/
theorem invalid_input_yields_400 (o1 o2 : Option Resp) :
    POST (some "") o1 o2 = PostResult.err 400 missingUrlMsg
    ∧ POST none o1 o2 = PostResult.err 400 missingUrlMsg
    ∧ POST (some "https://") o1 o2 = PostResult.err 400 invalidUrlMsg
    ∧ POST (some "   ") o1 o2 = PostResult.err 400 invalidUrlMsg
    ∧ 0 < missingUrlMsg.length ∧ 0 < invalidUrlMsg.length := by
  have h1 : normalizeUrl "https://" = none := by decide
  have h2 : normalizeUrl "   " = none := by decide
  refine ⟨rfl, rfl, ?_, ?_, by decide, by decide⟩
  · simp [POST, h1]
  · simp [POST, h2]

/-- C1: the score of every completed scan is ten times the number of ok
findings among the eight (ten per ok header finding plus ten for each true
probe boolean), a multiple of ten in [0, 100], and equal to the unclamped
formula, so the clamp never changes it. -/
theorem score_is_ten_per_ok_finding (host : String) (o1 o2 : Option Resp) :
    (mkPayload host o1 o2).score
        = 10 * ((mkPayload host o1 o2).findings.countP (fun f => f.ok) : Int)
    ∧ (mkPayload host o1 o2).score % 10 = 0
    ∧ 0 ≤ (mkPayload host o1 o2).score
    ∧ (mkPayload host o1 o2).score ≤ 100
    ∧ (mkPayload host o1 o2).score =
        rawScore (mkPayload host o1 o2).findings (mkPayload host o1 o2).httpsEnabled
          (mkPayload host o1 o2).httpRedirectsToHttps := by
  dsimp only [mkPayload, scanFindings, findings8]
  generalize httpsEnabledOf o1 = b1
  generalize httpRedirectsOf o2 = b2
  generalize toBoolHeader (getHdr o1 "strict-transport-security") = c1
  generalize toBoolHeader (getHdr o1 "content-security-policy") = c2
  generalize toBoolHeader (getHdr o1 "x-frame-options") = c3
  generalize toBoolHeader (getHdr o1 "x-content-type-options") = c4
  generalize toBoolHeader (getHdr o1 "referrer-policy") = c5
  generalize toBoolHeader (getHdr o1 "permissions-policy") = c6
  revert b1 b2 c1 c2 c3 c4 c5 c6
  decide

/-- C3: every scan result has exactly eight findings carrying the fixed keys
in fixed order; the first two ok flags are the two probe booleans and each of
the remaining six is ok exactly when its extracted header value is present
and non-empty. -/
theorem findings_fixed_shape (host : String) (o1 o2 : Option Resp) :
    (mkPayload host o1 o2).findings.length = 8
    ∧ (mkPayload host o1 o2).findings.map (fun f => f.key) =
        ["httpsEnabled", "httpRedirectsToHttps", "hsts", "csp", "x-frame-options",
         "x-content-type-options", "referrer-policy", "permissions-policy"]
    ∧ (mkPayload host o1 o2).findings.map (fun f => f.ok) =
        [(mkPayload host o1 o2).httpsEnabled, (mkPayload host o1 o2).httpRedirectsToHttps,
         toBoolHeader (mkPayload host o1 o2).headers.hsts,
         toBoolHeader (mkPayload host o1 o2).headers.csp,
         toBoolHeader (mkPayload host o1 o2).headers.xFrameOptions,
         toBoolHeader (mkPayload host o1 o2).headers.xContentTypeOptions,
         toBoolHeader (mkPayload host o1 o2).headers.referrerPolicy,
         toBoolHeader (mkPayload host o1 o2).headers.permissionsPolicy]
    ∧ (∀ h : Option String, toBoolHeader h = true ↔ h ≠ none ∧ h ≠ some "") :=
  ⟨rfl, rfl, rfl, toBoolHeader_iff⟩

/-- C7: in every scan result, a finding carries advice exactly when it is not
ok; no ok finding has advice. -/
theorem advice_iff_not_ok (host : String) (o1 o2 : Option Resp) :
    ((mkPayload host o1 o2).findings.all (fun f => f.advice.isSome == !f.ok)) = true := by
  dsimp only [mkPayload, scanFindings, findings8]
  generalize httpsEnabledOf o1 = b1
  generalize httpRedirectsOf o2 = b2
  generalize toBoolHeader (getHdr o1 "strict-transport-security") = c1
  generalize toBoolHeader (getHdr o1 "content-security-policy") = c2
  generalize toBoolHeader (getHdr o1 "x-frame-options") = c3
  generalize toBoolHeader (getHdr o1 "x-content-type-options") = c4
  generalize toBoolHeader (getHdr o1 "referrer-policy") = c5
  generalize toBoolHeader (getHdr o1 "permissions-policy") = c6
  revert b1 b2 c1 c2 c3 c4 c5 c6
  decide

/-- C8: priorities hold at most three entries, every entry's key belongs to a
failing finding, the list is the prefix-take of the failing findings with
truthy advice in original order, and when all eight findings fail the keys
are exactly httpsEnabled, httpRedirectsToHttps, hsts in that order. -/
theorem priorities_prefix_of_failures (host : String) (o1 o2 : Option Resp) :
    (mkPayload host o1 o2).priorities.length ≤ 3
    ∧ ((mkPayload host o1 o2).priorities.all (fun p =>
        (mkPayload host o1 o2).findings.any (fun f => f.key == p.1 && f.ok == false))) = true
    ∧ (mkPayload host o1 o2).priorities =
        (((mkPayload host o1 o2).findings.filter (fun f => !f.ok && adviceTruthy f)).take 3).map
          (fun f => (f.key, f.advice.getD ""))
    ∧ ((∀ f ∈ (mkPayload host o1 o2).findings, f.ok = false) →
        (mkPayload host o1 o2).priorities.map Prod.fst =
          ["httpsEnabled", "httpRedirectsToHttps", "hsts"]) := by
  dsimp only [mkPayload, scanFindings, findings8, computePriorities]
  generalize httpsEnabledOf o1 = b1
  generalize httpRedirectsOf o2 = b2
  generalize toBoolHeader (getHdr o1 "strict-transport-security") = c1
  generalize toBoolHeader (getHdr o1 "content-security-policy") = c2
  generalize toBoolHeader (getHdr o1 "x-frame-options") = c3
  generalize toBoolHeader (getHdr o1 "x-content-type-options") = c4
  generalize toBoolHeader (getHdr o1 "referrer-policy") = c5
  generalize toBoolHeader (getHdr o1 "permissions-policy") = c6
  revert b1 b2 c1 c2 c3 c4 c5 c6
  decide

/-- C8 witness: with both probes failed every finding fails and the priority
keys are the first three finding keys in order. -/
theorem priorities_prefix_of_failures_witness :
    (mkPayload "example.com" none none).priorities.map Prod.fst =
      ["httpsEnabled", "httpRedirectsToHttps", "hsts"] :=
  (priorities_prefix_of_failures "example.com" none none).2.2.2 (by decide)

/-- C2: when the HTTPS probe throws, `httpsEnabled` is false, all six header
findings fail, no headers are retained (they are retained exactly when the
fetch completed), and the scan still returns the 200 payload, not an error. -/
theorem https_probe_failure_degrades (host url : String) (o2 : Option Resp) (n : NormalizedUrl)
    (hu : url ≠ "") (hn : normalizeUrl url = some n) :
    (mkPayload host none o2).httpsEnabled = false
    ∧ ((mkPayload host none o2).findings.drop 2).all (fun f => !f.ok) = true
    ∧ (mkPayload host none o2).headers = ⟨none, none, none, none, none, none⟩
    ∧ httpsHeadersOf none = none
    ∧ (∀ r : Resp, httpsHeadersOf (some r) = some r.headers)
    ∧ POST (some url) none o2 = PostResult.ok 200 (mkPayload n.host none o2) := by
  refine ⟨rfl, rfl, rfl, rfl, fun r => rfl, ?_⟩
  simp only [POST, if_neg hu, hn]

/-- C2 witness: scanning `example.com` with the HTTPS probe thrown still
returns the 200 payload with all header signals absent. -/
theorem https_probe_failure_degrades_witness :
    (mkPayload "example.com" none none).httpsEnabled = false
    ∧ ((mkPayload "example.com" none none).findings.drop 2).all (fun f => !f.ok) = true
    ∧ (mkPayload "example.com" none none).headers = ⟨none, none, none, none, none, none⟩
    ∧ httpsHeadersOf none = none
    ∧ (∀ r : Resp, httpsHeadersOf (some r) = some r.headers)
    ∧ POST (some "example.com") none none =
        PostResult.ok 200 (mkPayload "example.com" none none) :=
  https_probe_failure_degrades "example.com" "example.com" none
    ⟨"https://example.com/", "http://example.com/", "example.com"⟩ (by decide) (by decide)

/-- C4: whenever normalization succeeds, the two probe URLs are the scheme
followed by the shared host and a root slash, the host is what URL parsing
extracted from the trimmed (and, when schemeless, https-prefixed) input, and
any path or query of the input is absent from both URLs. -/
theorem normalize_builds_root_urls (input : String) (n : NormalizedUrl)
    (h : normalizeUrl input = some n) :
    n.httpsUrl = "https://" ++ n.host ++ "/"
    ∧ n.httpUrl = "http://" ++ n.host ++ "/"
    ∧ parseUrlHost (prefixedUrl input) = some n.host
    ∧ prefixedUrl input =
        (if hasHttpScheme (jsTrim input) then jsTrim input else "https://" ++ jsTrim input) := by
  unfold normalizeUrl at h
  cases hp : parseUrlHost (prefixedUrl input) with
  | none => rw [hp] at h; exact absurd h (by simp)
  | some hst =>
    rw [hp] at h
    simp only [Option.some.injEq] at h
    subst h
    exact ⟨rfl, rfl, rfl, rfl⟩

/-- C4 witness: an input with surrounding whitespace, a path and a query
normalizes to the bare host with root path on both schemes. -/
theorem normalize_builds_root_urls_witness :
    ("https://example.com/" = "https://" ++ "example.com" ++ "/")
    ∧ ("http://example.com/" = "http://" ++ "example.com" ++ "/")
    ∧ parseUrlHost (prefixedUrl "  example.com/path?q=1  ") = some "example.com"
    ∧ prefixedUrl "  example.com/path?q=1  " =
        (if hasHttpScheme (jsTrim "  example.com/path?q=1  ")
         then jsTrim "  example.com/path?q=1  "
         else "https://" ++ jsTrim "  example.com/path?q=1  ") :=
  normalize_builds_root_urls "  example.com/path?q=1  "
    ⟨"https://example.com/", "http://example.com/", "example.com"⟩ (by decide)

/-- C6: the first-hop HTTP probe reports a redirect to HTTPS exactly when the
status is one of 301, 302, 307, 308 and the location value passes the
case-insensitive https scheme test; a thrown fetch yields false, and any
location of the form https scheme plus arbitrary remainder passes the test
regardless of its host or path. -/
theorem redirect_iff_status_and_location (o : Option Resp) :
    (httpRedirectsOf o = true ↔
      ∃ r : Resp, o = some r
        ∧ (r.status = 301 ∨ r.status = 302 ∨ r.status = 307 ∨ r.status = 308)
        ∧ startsWithCI ((headersGet r.headers "location").getD "") "https://" = true)
    ∧ httpRedirectsOf none = false
    ∧ (∀ rest : String, startsWithCI ("https://" ++ rest) "https://" = true)
    ∧ (∀ rest : String, startsWithCI ("HTTPS://" ++ rest) "https://" = true) := by
  refine ⟨?_, rfl, fun rest => startsWithCI_append "https://" rest, fun rest => ?_⟩
  · cases o with
    | none => simp [httpRedirectsOf]
    | some r =>
      simp only [httpRedirectsOf, Option.some.injEq, Bool.and_eq_true, List.contains_cons,
        List.contains_nil, Bool.or_false, Bool.or_eq_true, beq_iff_eq]
      constructor
      · rintro ⟨hs, hl⟩; exact ⟨r, rfl, hs, hl⟩
      · rintro ⟨r', hr, hs, hl⟩; cases hr; exact ⟨hs, hl⟩
  · have hlow : lowerChars "HTTPS://" = lowerChars "https://" := by decide
    unfold startsWithCI
    rw [show lowerChars ("HTTPS://" ++ rest) = lowerChars "HTTPS://" ++ lowerChars rest from by
      unfold lowerChars; rw [String.data_append, List.map_append], hlow]
    exact isPrefixOf_append_self _ _

/-- C10: headers of a completed HTTPS fetch are retained and drive the six
header lookups even when the final status is outside [200, 400), so a header
finding can pass while the httpsEnabled finding fails. -/
theorem headers_used_despite_bad_status (host : String) (r : Resp) (o2 : Option Resp)
    (hbad : ¬(200 ≤ r.status ∧ r.status < 400)) :
    httpsHeadersOf (some r) = some r.headers
    ∧ (mkPayload host (some r) o2).headers.hsts = headersGet r.headers "strict-transport-security"
    ∧ (mkPayload host (some r) o2).httpsEnabled = false
    ∧ (mkPayload host (some r) o2).findings.map (fun f => f.ok) =
        [false, httpRedirectsOf o2,
         toBoolHeader (headersGet r.headers "strict-transport-security"),
         toBoolHeader (headersGet r.headers "content-security-policy"),
         toBoolHeader (headersGet r.headers "x-frame-options"),
         toBoolHeader (headersGet r.headers "x-content-type-options"),
         toBoolHeader (headersGet r.headers "referrer-policy"),
         toBoolHeader (headersGet r.headers "permissions-policy")] := by
  have hEn : httpsEnabledOf (some r) = false := by
    rcases Bool.eq_false_or_eq_true (httpsEnabledOf (some r)) with h | h
    · exact absurd ((httpsEnabledOf_some_eq_true r).mp h) hbad
    · exact h
  refine ⟨rfl, rfl, hEn, ?_⟩
  have hmap : (mkPayload host (some r) o2).findings.map (fun f => f.ok) =
      [httpsEnabledOf (some r), httpRedirectsOf o2,
       toBoolHeader (headersGet r.headers "strict-transport-security"),
       toBoolHeader (headersGet r.headers "content-security-policy"),
       toBoolHeader (headersGet r.headers "x-frame-options"),
       toBoolHeader (headersGet r.headers "x-content-type-options"),
       toBoolHeader (headersGet r.headers "referrer-policy"),
       toBoolHeader (headersGet r.headers "permissions-policy")] := rfl
  rw [hmap, hEn]

/-- C10 witness: a 500 response that sets Strict-Transport-Security yields a
passing hsts finding alongside a failing httpsEnabled finding. -/
theorem headers_used_despite_bad_status_witness :
    httpsHeadersOf (some ⟨500, [("strict-transport-security", "max-age=1")]⟩) =
      some [("strict-transport-security", "max-age=1")]
    ∧ (mkPayload "example.com" (some ⟨500, [("strict-transport-security", "max-age=1")]⟩)
        none).headers.hsts = some "max-age=1"
    ∧ (mkPayload "example.com" (some ⟨500, [("strict-transport-security", "max-age=1")]⟩)
        none).httpsEnabled = false
    ∧ (mkPayload "example.com" (some ⟨500, [("strict-transport-security", "max-age=1")]⟩)
        none).findings.map (fun f => f.ok) =
        [false, false, true, false, false, false, false, false] :=
  headers_used_despite_bad_status "example.com"
    ⟨500, [("strict-transport-security", "max-age=1")]⟩ none (by decide)
